import Mathlib

/-!
Verification development for the PolitiRate repository.

This file gives a shallow embedding of the two pieces of logic the
specification names — the notification audience filter
(`src/data/notifications.ts`) and the poll-results computations of the
admin `PollResults` component and `CreatePollPage` form — and proves or
refutes the specification's claims about them.

Conventions of the embedding:
* TypeScript nullable values (`T | null`, optional fields) become `Option`.
* JavaScript truthiness tests on strings and numbers are modelled
  explicitly (`null`/`undefined`/`""`/`0` are falsy).
* JavaScript number division is modelled on `ℚ` extended with the
  IEEE special values `NaN`/`Infinity`/`-Infinity` reachable from the
  divisions the code performs (`JsNum`); an integer-valued IEEE double in
  the ranges involved is exact, so `ℚ` is faithful for these programs.
* Timestamps are milliseconds since the epoch, as `Int`.
-/

namespace PolitiRate

/-! ## JavaScript truthiness helpers -/

/-- Truthiness of a nullable JS string: `null`, `undefined` and `""` are
falsy. -/
def jsStrTruthy : Option String → Bool
  | none => false
  | some s => decide (s ≠ "")

/-- Truthiness of a nullable JS number: `null`, `undefined` and `0` are
falsy. -/
def jsNumTruthy : Option Int → Bool
  | none => false
  | some n => decide (n ≠ 0)

/-! ## Notification data model (`src/data/notifications.ts`) -/

/-- The `target_filters` object stored on a notification row
(`SiteNotification.target_filters` in `notifications.ts`). -/
structure TargetFilters where
  states : Option (List String)
  constituencies : Option (List String)
  gender : Option (List String)
  age_min : Option Int
  age_max : Option Int
deriving Repr, DecidableEq

/-- A notification row, restricted to the fields the filtering logic
reads. -/
structure SiteNotification where
  id : String
  title : String
  message : String
  isActive : Bool
  target_filters : Option TargetFilters
deriving Repr, DecidableEq

/-- The user columns selected by `getActiveNotificationsForUser`:
`state, mpConstituency, gender, dateOfBirth` (all nullable);
`dateOfBirth` as a millisecond timestamp. -/
structure UserRow where
  state : Option String
  mpConstituency : Option String
  gender : Option String
  dateOfBirth : Option Int
deriving Repr, DecidableEq

/-- Milliseconds in a Julian year, the divisor `365.25 * 24 * 60 * 60 * 1000`
used by the age computation (exact as an integer). -/
def msPerYear : Int := 31557600000

/-- `userData?.dateOfBirth ? Math.floor((Date.now() - new Date(dob).getTime()) / msPerYear) : null`. -/
def computeUserAge (now : Int) (dateOfBirth : Option Int) : Option Int :=
  match dateOfBirth with
  | none => none
  | some dob => some ⌊((now - dob : Int) : ℚ) / (msPerYear : ℚ)⌋

/-- `filters.X && filters.X.length > 0`: the sub-filter is present and
non-empty. -/
def listFilterActive : Option (List String) → Bool
  | none => false
  | some l => decide (l.length > 0)

/-- The per-notification predicate of `getActiveNotificationsForUser`
(the body of `notifications.filter` for a notification whose
`target_filters` is non-null): state, constituency and gender list checks
followed by the age-bound checks, each an early `return false`. -/
def matchesTargetFilters (userData : UserRow) (userAge : Option Int)
    (filters : TargetFilters) : Bool :=
  if listFilterActive filters.states &&
      (!jsStrTruthy userData.state ||
        !((filters.states.getD []).contains (userData.state.getD ""))) then
    false
  else if listFilterActive filters.constituencies &&
      (!jsStrTruthy userData.mpConstituency ||
        !((filters.constituencies.getD []).contains (userData.mpConstituency.getD ""))) then
    false
  else if listFilterActive filters.gender &&
      (!jsStrTruthy userData.gender ||
        !((filters.gender.getD []).contains (userData.gender.getD ""))) then
    false
  else
    match userAge with
    | none => true
    | some age =>
      if jsNumTruthy filters.age_min && decide (age < filters.age_min.getD 0) then
        false
      else if jsNumTruthy filters.age_max && decide (age > filters.age_max.getD 0) then
        false
      else
        true

/-- The filtering stage of `getActiveNotificationsForUser`, applied to the
already-fetched list of active notifications. `userId` is the argument
(`string | null`); `userFetch` is the outcome of the user-row query
(`none` models the `userError` branch). A falsy `userId` and a failed user
fetch both return only the notifications with no target filters
(`!notification.target_filters`). -/
def getActiveNotificationsForUser (now : Int) (userId : Option String)
    (fetchedActive : List SiteNotification) (userFetch : Option UserRow) :
    List SiteNotification :=
  if !jsStrTruthy userId then
    fetchedActive.filter (fun n => n.target_filters.isNone)
  else
    match userFetch with
    | none => fetchedActive.filter (fun n => n.target_filters.isNone)
    | some userData =>
      let userAge := computeUserAge now userData.dateOfBirth
      fetchedActive.filter (fun n =>
        match n.target_filters with
        | none => true
        | some filters => matchesTargetFilters userData userAge filters)

/-! ## `addNotification` (`src/data/notifications.ts`) -/

/-- The `notification_type` union
`'announcement' | 'alert' | 'info' | 'warning'`. -/
inductive NotificationType where
  | announcement
  | alert
  | info
  | warning
deriving Repr, DecidableEq

/-- The `CreateNotificationData` interface. `startTime`/`endTime` are kept
as parsed millisecond timestamps (the code compares them as `Date`s). -/
structure CreateNotificationData where
  message : String
  isActive : Bool
  startTime : Option Int
  endTime : Option Int
  title : Option String
  notification_type : Option NotificationType
  show_banner : Option Bool
  link : Option String
  target_filters : Option TargetFilters
deriving Repr, DecidableEq

/-- The notification row produced by the insert of `addNotification`.
`target_filters` is the value the row's column receives: the insert
object passes keys
`title, message, isActive, startTime, endTime, notification_type,
show_banner, link` and no `target_filters` key, so that column keeps its
default (null). -/
structure NotificationInsertRow where
  title : String
  message : String
  isActive : Bool
  startTime : Option Int
  endTime : Option Int
  notification_type : NotificationType
  show_banner : Bool
  link : Option String
  target_filters : Option TargetFilters
deriving Repr, DecidableEq

/-- JS `String.prototype.trim`: strip leading and trailing whitespace. -/
def jsTrim (s : String) : String :=
  ⟨((s.data.dropWhile Char.isWhitespace).reverse.dropWhile
      Char.isWhitespace).reverse⟩

/-- `addNotification`: validation (`message` non-blank; when both times are
given, start must be before end) followed by the insert. `title ||
'Site Notification'` and `notification_type || 'announcement'` are JS
falsy-defaulting (every `NotificationType` renders as a non-empty string,
hence is truthy); `show_banner ?? true` is nullish coalescing. -/
def addNotification (d : CreateNotificationData) :
    Except String NotificationInsertRow :=
  if jsTrim d.message = "" then
    .error "Message is required"
  else
    match d.startTime, d.endTime with
    | some s, some e =>
      if s ≥ e then .error "End time must be after start time"
      else .ok
        { title := match d.title with
            | none => "Site Notification"
            | some t => if t = "" then "Site Notification" else t
          message := jsTrim d.message
          isActive := d.isActive
          startTime := d.startTime
          endTime := d.endTime
          notification_type := d.notification_type.getD .announcement
          show_banner := d.show_banner.getD true
          link := d.link
          target_filters := none }
    | _, _ =>
      .ok
        { title := match d.title with
            | none => "Site Notification"
            | some t => if t = "" then "Site Notification" else t
          message := jsTrim d.message
          isActive := d.isActive
          startTime := d.startTime
          endTime := d.endTime
          notification_type := d.notification_type.getD .announcement
          show_banner := d.show_banner.getD true
          link := d.link
          target_filters := none }

/-! ## JS numbers for the poll-results percentages -/

/-- A JavaScript number as produced by the divisions in `PollResults`:
either a finite value (exact on `ℚ` for these computations) or one of the
IEEE special values. -/
inductive JsNum where
  | num : ℚ → JsNum
  | nan : JsNum
  | inf : JsNum
  | negInf : JsNum
deriving Repr, DecidableEq

/-- JS division `a / b`: `0/0 = NaN`, `a/0 = ±Infinity` for `a ≠ 0`. -/
def jsDiv (a b : ℚ) : JsNum :=
  if b = 0 then
    if a = 0 then .nan else if 0 < a then .inf else .negInf
  else
    .num (a / b)

/-- JS multiplication of a (possibly special) number by a rational
constant, enough for the `* 100` steps. -/
def jsMul (x : JsNum) (c : ℚ) : JsNum :=
  match x with
  | .num q => .num (q * c)
  | .nan => .nan
  | .inf => if 0 < c then .inf else if c = 0 then .nan else .negInf
  | .negInf => if 0 < c then .negInf else if c = 0 then .nan else .inf

/-! ## Poll results (`PollResults` component) -/

/-- One `{ name, value }` record: a per-option answer count, also the shape
of the gender-distribution entries. -/
structure AnswerCount where
  name : String
  value : Nat
deriving Repr, DecidableEq

/-- `question.answers.reduce((sum, answer) => sum + answer.value, 0)`. -/
def totalVotes (answers : List AnswerCount) : Nat :=
  answers.foldl (fun sum answer => sum + answer.value) 0

/-- The reducer `(a, b) => a.value > b.value ? a : b` of the winner
computation. -/
def winnerStep (a b : AnswerCount) : AnswerCount :=
  if a.value > b.value then a else b

/-- `question.answers.reduce((a, b) => a.value > b.value ? a : b)`:
JS `reduce` with no initial value throws on an empty array, hence
`Option`. -/
def winnerReduce (answers : List AnswerCount) : Option AnswerCount :=
  match answers with
  | [] => none
  | a :: rest => some (rest.foldl winnerStep a)

/-- The percentage the component computes for one option of a question:
`(answer.value / totalVotes) * 100` with no guard on `totalVotes`. -/
def optionPercent (answers : List AnswerCount) (a : AnswerCount) : JsNum :=
  jsMul (jsDiv (a.value : ℚ) (totalVotes answers : ℚ)) 100

/-! ## Poll aggregation (`getPollResults` of `@/data/polls`) -/

/-- A poll option row (`poll_options`). -/
structure PollOption where
  id : String
  text : String
deriving Repr, DecidableEq

/-- A poll question row with its ordered options. -/
structure PollQuestion where
  id : String
  text : String
  options : List PollOption
deriving Repr, DecidableEq

/-- A poll with its ordered questions. -/
structure Poll where
  id : String
  title : String
  questions : List PollQuestion
deriving Repr, DecidableEq

/-- One answer of a response: a selected option for a question
(`poll_answers` row). -/
structure PollAnswer where
  question_id : String
  selected_option_id : String
deriving Repr, DecidableEq

/-- One respondent's response with the demographics the results view
uses. The schema's `UNIQUE (poll_id, user_id)` constraint makes each
response of a poll a distinct respondent. -/
structure PollResponse where
  user_id : String
  gender : Option String
  answers : List PollAnswer
deriving Repr, DecidableEq

/-- Per-question results as the `PollResults` component consumes them. -/
structure QuestionResult where
  id : String
  text : String
  answers : List AnswerCount
deriving Repr, DecidableEq

/-- The `PollResult` record fetched by the component. -/
structure PollResult where
  pollTitle : String
  totalResponses : Nat
  questions : List QuestionResult
  genderDistribution : List AnswerCount
deriving Repr, DecidableEq

/-- Number of responses that selected option `oid` on question `qid`. -/
def countVotes (responses : List PollResponse) (qid oid : String) : Nat :=
  (responses.filter (fun r =>
    r.answers.any (fun a => a.question_id == qid && a.selected_option_id == oid))).length

/-- Gender key of a respondent; missing gender is grouped as
`"Unknown"` (the component's fallback color key). -/
def genderName : Option String → String
  | none => "Unknown"
  | some s => s

/-- The fixed gender categories of the results view. -/
def genderKeys : List String := ["Male", "Female", "Other", "Unknown"]

/-- Modelled from the spec: the repository imports `getPollResults` from
`@/data/polls`, a module absent from the provided sources; only its
consumer (the `PollResults` component) is present. Per the spec's
PollAggregator contract: per question, votes are summed per option from
the response records; `totalResponses` counts the responses (one per
distinct respondent, by the `UNIQUE (poll_id, user_id)` constraint); the
demographic breakdown groups respondents by gender, once per
respondent. -/
def aggregate (poll : Poll) (responses : List PollResponse) : PollResult :=
  { pollTitle := poll.title
    totalResponses := responses.length
    questions := poll.questions.map (fun q =>
      { id := q.id
        text := q.text
        answers := q.options.map (fun o =>
          { name := o.text, value := countVotes responses q.id o.id }) })
    genderDistribution := genderKeys.map (fun g =>
      { name := g
        value := (responses.filter (fun r => genderName r.gender == g)).length }) }

/-- What the component renders: the empty notice when
`totalResponses = 0` (`results.totalResponses > 0 ? ... : "There are no
responses for this poll yet."`), otherwise the detailed view whose
computed percentages are the per-question option percentages and the
gender-distribution percentages (`(item.value / results.totalResponses) *
100`). -/
inductive RenderedResults where
  | empty
  | detailed (questionPercents : List (List JsNum)) (genderPercents : List JsNum)
deriving Repr, DecidableEq

/-- The rendering decision of the `PollResults` component together with
every percentage the chosen branch computes. -/
def renderPollResults (r : PollResult) : RenderedResults :=
  if r.totalResponses > 0 then
    .detailed
      (r.questions.map (fun q => q.answers.map (fun a => optionPercent q.answers a)))
      (r.genderDistribution.map (fun g =>
        jsMul (jsDiv (g.value : ℚ) (r.totalResponses : ℚ)) 100))
  else
    .empty

/-! ## Poll creation form (`CreatePollPage`, zod `pollSchema`) -/

/-- `z.enum(['yes_no', 'multiple_choice'])`. -/
inductive PollQuestionType where
  | yes_no
  | multiple_choice
deriving Repr, DecidableEq

/-- A question of the creation form. -/
structure PollQuestionForm where
  question_text : String
  question_type : PollQuestionType
  options : List String
deriving Repr, DecidableEq

/-- The `target_filters` object of the creation form. -/
structure PollTargetFiltersForm where
  states : Option (List String)
  constituencies : Option (List String)
  gender : Option (List String)
  age_min : Option Int
  age_max : Option Int
deriving Repr, DecidableEq

/-- The creation form data validated by `pollSchema`. -/
structure PollFormData where
  title : String
  description : Option String
  is_active : Bool
  active_until : Option Int
  target_filters : Option PollTargetFiltersForm
  questions : List PollQuestionForm
deriving Repr, DecidableEq

/-- `questionSchema`: non-empty question text, at least two options, each
non-empty. -/
def questionSchemaValid (q : PollQuestionForm) : Bool :=
  decide (1 ≤ q.question_text.length) &&
  decide (2 ≤ q.options.length) &&
  q.options.all (fun o => decide (1 ≤ o.length))

/-- `z.number().min(18).max(100).optional()` for each age bound. -/
def ageBoundValid : Option Int → Bool
  | none => true
  | some n => decide (18 ≤ n) && decide (n ≤ 100)

/-- The `target_filters` branch of `pollSchema`: the list sub-filters
carry no constraint; each age bound is independently range-checked.
No cross-field refinement relates `age_min` and `age_max`. -/
def targetFiltersValid : Option PollTargetFiltersForm → Bool
  | none => true
  | some f => ageBoundValid f.age_min && ageBoundValid f.age_max

/-- `pollSchema`: non-empty title, valid optional target filters, at
least one question, each valid. -/
def pollSchemaValid (p : PollFormData) : Bool :=
  decide (1 ≤ p.title.length) &&
  targetFiltersValid p.target_filters &&
  decide (1 ≤ p.questions.length) &&
  p.questions.all questionSchemaValid

/-- The inline warning of `CreatePollPage`
(`watch(age_min) && watch(age_max) && age_min > age_max`): a message is
displayed, but nothing is added to the schema and submission is not
blocked. -/
def ageWarningShown : Option PollTargetFiltersForm → Bool
  | none => false
  | some f =>
    jsNumTruthy f.age_min && jsNumTruthy f.age_max &&
      decide (f.age_min.getD 0 > f.age_max.getD 0)

/-! ## Concrete inputs used by counterexamples and witnesses -/

/-- A user row with every demographic column null (in particular no
birth date). -/
def u0 : UserRow :=
  { state := none, mpConstituency := none, gender := none, dateOfBirth := none }

/-- A target filter carrying only age bounds, `{age_min: 18, age_max: 30}`. -/
def tfAge : TargetFilters :=
  { states := none, constituencies := none, gender := none
    age_min := some 18, age_max := some 30 }

/-- An active notification targeted by `tfAge`. -/
def n0 : SiteNotification :=
  { id := "n0", title := "t", message := "m", isActive := true
    target_filters := some tfAge }

/-- A target filter whose list sub-filters are all present but empty. -/
def tfEmptyLists : TargetFilters :=
  { states := some [], constituencies := some [], gender := some []
    age_min := none, age_max := none }

/-- A creation request that supplies a non-null `target_filters`. -/
def dWithFilters : CreateNotificationData :=
  { message := "hello", isActive := true, startTime := none, endTime := none
    title := none, notification_type := none, show_banner := none
    link := none, target_filters := some tfAge }

/-- The row `addNotification dWithFilters` inserts. -/
def insertedRow : NotificationInsertRow :=
  { title := "Site Notification", message := "hello", isActive := true
    startTime := none, endTime := none
    notification_type := .announcement, show_banner := true
    link := none, target_filters := none }

/-- Two options tied at 3 votes each, `A` listed first. -/
def ansTie : List AnswerCount := [⟨"A", 3⟩, ⟨"B", 3⟩]

/-- A single option with zero votes (question total 0). -/
def ansZero : List AnswerCount := [⟨"A", 0⟩]

/-- Options with 3 and 1 votes (question total 4). -/
def ansW : List AnswerCount := [⟨"A", 3⟩, ⟨"B", 1⟩]

/-- A one-question, two-option poll. -/
def poll0 : Poll :=
  { id := "p", title := "P"
    questions := [{ id := "q1", text := "Q?"
                    options := [⟨"o1", "A"⟩, ⟨"o2", "B"⟩] }] }

/-- A response selecting option `o1`. -/
def resp1 : PollResponse :=
  { user_id := "u1", gender := some "Male"
    answers := [{ question_id := "q1", selected_option_id := "o1" }] }

/-- A response selecting option `o2`. -/
def resp2 : PollResponse :=
  { user_id := "u2", gender := some "Female"
    answers := [{ question_id := "q1", selected_option_id := "o2" }] }

/-- Form target filters with `age_min = 30 > age_max = 20`, both within
`[18, 100]`. -/
def filtersBadOrder : PollTargetFiltersForm :=
  { states := some [], constituencies := some [], gender := some []
    age_min := some 30, age_max := some 20 }

/-- An otherwise fully valid creation form carrying `filtersBadOrder`. -/
def pollFormBadOrder : PollFormData :=
  { title := "T", description := none, is_active := true, active_until := none
    target_filters := some filtersBadOrder
    questions := [{ question_text := "Q?", question_type := .multiple_choice
                    options := ["Yes", "No"] }] }

/-! ## Theorems -/

/-- C4: a notification whose `target_filters` is null is included by
`getActiveNotificationsForUser` for every viewer, whatever the user id,
the fetched user row, and the user's demographics. -/
theorem noFilter_always_included (now : Int) (userId : Option String)
    (ns : List SiteNotification) (userFetch : Option UserRow)
    (n : SiteNotification) (hmem : n ∈ ns) (hnone : n.target_filters = none) :
    n ∈ getActiveNotificationsForUser now userId ns userFetch := by
  unfold getActiveNotificationsForUser
  by_cases h : (!jsStrTruthy userId) = true
  · simp only [h, if_true]
    exact List.mem_filter.mpr ⟨hmem, by simp [hnone]⟩
  · rw [if_neg h]
    cases userFetch with
    | none => exact List.mem_filter.mpr ⟨hmem, by simp [hnone]⟩
    | some userData => exact List.mem_filter.mpr ⟨hmem, by simp [hnone]⟩

/-- Witness for C4 at a concrete input. -/
theorem noFilter_always_included_witness :
    ({ id := "n1", title := "t", message := "m", isActive := true,
       target_filters := none } : SiteNotification) ∈
      getActiveNotificationsForUser 0 (some "u")
        [{ id := "n1", title := "t", message := "m", isActive := true,
           target_filters := none }] (some u0) :=
  noFilter_always_included 0 (some "u") _ (some u0) _ (by simp) rfl

/-- C5: when the states sub-filter is present and non-empty and the
viewer's state is missing or not listed, the match is false, regardless
of every other sub-filter and of the viewer's age. -/
theorem states_fail_closed (u : UserRow) (age : Option Int)
    (f : TargetFilters) (ss : List String)
    (hs : f.states = some ss) (hne : ss ≠ [])
    (hmiss : u.state = none ∨ ∀ s, u.state = some s → ss.contains s = false) :
    matchesTargetFilters u age f = false := by
  have hact : listFilterActive (some ss) = true := by
    simpa [listFilterActive, List.length_pos] using hne
  have hcond : (listFilterActive f.states &&
      (!jsStrTruthy u.state ||
        !((f.states.getD []).contains (u.state.getD "")))) = true := by
    rw [hs, hact, Bool.true_and]
    rcases hmiss with hnone | hforall
    · rw [hnone]
      rfl
    · cases hu : u.state with
      | none => rfl
      | some s =>
        by_cases hse : s = ""
        · simp [hu, jsStrTruthy, hse]
        · have hnotmem : s ∉ ss := by simpa using hforall s hu
          simp [hu, jsStrTruthy, hse, hnotmem]
  unfold matchesTargetFilters
  rw [if_pos hcond]

/-- Witness for C5 at a concrete input: a Kerala-only filter and a viewer
from elsewhere. -/
theorem states_fail_closed_witness :
    matchesTargetFilters
      { state := some "Goa", mpConstituency := none, gender := none,
        dateOfBirth := none }
      none
      { states := some ["Kerala"], constituencies := none, gender := none,
        age_min := none, age_max := none } = false :=
  states_fail_closed _ none _ ["Kerala"] rfl (by simp)
    (Or.inr (fun s hsome => by
      cases hsome
      simp))

/-- C10: for a null `userId`, `getActiveNotificationsForUser` returns
exactly the fetched active notifications whose `target_filters` is null;
and a filter object whose list sub-filters are all empty matches every
logged-in viewer, so such a notification is dropped for anonymous viewers
only because the object is non-null. -/
theorem anonymous_gets_only_unfiltered (now : Int)
    (ns : List SiteNotification) (userFetch : Option UserRow) :
    getActiveNotificationsForUser now none ns userFetch =
      ns.filter (fun n => n.target_filters.isNone) ∧
    ∀ (u : UserRow) (age : Option Int),
      matchesTargetFilters u age tfEmptyLists = true := by
  refine ⟨rfl, fun u age => ?_⟩
  cases age <;>
    simp [matchesTargetFilters, tfEmptyLists, listFilterActive, jsNumTruthy]

/-- C1 counterexample: a notification whose filter carries
`{age_min: 18, age_max: 30}` is NOT excluded for a logged-in viewer whose
`dateOfBirth` is null — the function returns it. -/
theorem ageBounds_no_dob_included_cex :
    getActiveNotificationsForUser 0 (some "u") [n0] (some u0) = [n0] := by
  rfl

/-- C1 amended: when the viewer has no birth date the computed age is
null and the age checks are skipped entirely (fail-open): the match
result is the same as for the filter with its age bounds removed. -/
theorem age_bounds_skipped_without_dob (now : Int) (u : UserRow)
    (f : TargetFilters) (h : u.dateOfBirth = none) :
    matchesTargetFilters u (computeUserAge now u.dateOfBirth) f =
      matchesTargetFilters u (computeUserAge now u.dateOfBirth)
        { f with age_min := none, age_max := none } := by
  rw [h]
  rfl

/-- Witness for the amended C1 at a concrete input. -/
theorem age_bounds_skipped_without_dob_witness :
    u0.dateOfBirth = none ∧
    matchesTargetFilters u0 (computeUserAge 0 u0.dateOfBirth) tfAge =
      matchesTargetFilters u0 (computeUserAge 0 u0.dateOfBirth)
        { tfAge with age_min := none, age_max := none } :=
  ⟨rfl, age_bounds_skipped_without_dob 0 u0 tfAge rfl⟩

/-- C9: whatever `CreateNotificationData` is supplied — including a
non-null `target_filters` — the row `addNotification` inserts has no
target filter. -/
theorem addNotification_drops_target_filters (d : CreateNotificationData)
    (row : NotificationInsertRow) (h : addNotification d = .ok row) :
    row.target_filters = none := by
  unfold addNotification at h
  split at h
  · cases h
  · split at h
    · split at h
      · cases h
      · injection h with h2
        rw [← h2]
    · injection h with h2
      rw [← h2]

/-- Witness for C9: a request that supplies `target_filters` still
produces a row without one. -/
theorem addNotification_drops_target_filters_witness :
    insertedRow.target_filters = none :=
  addNotification_drops_target_filters dWithFilters insertedRow (by rfl)

/-- The winner fold keeps the last element (in list order) among those
attaining the maximum count: for any start `a`, the fold result is a
member of `a :: l`, bounds every count, and is the last entry of the
filtered max-count sublist. -/
theorem winnerFold_spec (l : List AnswerCount) (a : AnswerCount) :
    l.foldl winnerStep a ∈ a :: l ∧
    (∀ x ∈ a :: l, x.value ≤ (l.foldl winnerStep a).value) ∧
    ((a :: l).filter
        (fun x => x.value == (l.foldl winnerStep a).value)).getLast? =
      some (l.foldl winnerStep a) := by
  induction l generalizing a with
  | nil =>
    refine ⟨List.mem_cons_self a [], ?_, ?_⟩
    · intro x hx
      rcases List.mem_cons.mp hx with h | h
      · simp [h]
      · exact absurd h (List.not_mem_nil x)
    · simp
  | cons b t ih =>
    obtain ⟨ihmem, ihle, ihlast⟩ := ih (winnerStep a b)
    have hstep : winnerStep a b = a ∨ winnerStep a b = b := by
      unfold winnerStep
      split
      · exact Or.inl rfl
      · exact Or.inr rfl
    have ha_le : a.value ≤ (winnerStep a b).value := by
      unfold winnerStep
      split
      · exact le_refl _
      · next hgt => exact Nat.le_of_not_lt hgt
    have hb_le : b.value ≤ (winnerStep a b).value := by
      unfold winnerStep
      split
      · next hgt => exact Nat.le_of_lt hgt
      · exact le_refl _
    have hstep_le : (winnerStep a b).value ≤ (t.foldl winnerStep (winnerStep a b)).value :=
      ihle _ (List.mem_cons_self _ _)
    have hfold : (b :: t).foldl winnerStep a = t.foldl winnerStep (winnerStep a b) := rfl
    rw [hfold]
    refine ⟨?_, ?_, ?_⟩
    · rcases List.mem_cons.mp ihmem with h | h
      · rcases hstep with hs | hs
        · rw [h, hs]; exact List.mem_cons_self _ _
        · rw [h, hs]; exact List.mem_cons_of_mem _ (List.mem_cons_self _ _)
      · exact List.mem_cons_of_mem _ (List.mem_cons_of_mem _ h)
    · intro x hx
      rcases List.mem_cons.mp hx with h | h
      · rw [h]; exact le_trans ha_le hstep_le
      · rcases List.mem_cons.mp h with h2 | h2
        · rw [h2]; exact le_trans hb_le hstep_le
        · exact ihle x (List.mem_cons_of_mem _ h2)
    · by_cases hab : a.value > b.value
      · have hstepa : winnerStep a b = a := by
          unfold winnerStep; rw [if_pos hab]
        rw [hstepa]
        obtain ⟨-, ihle2, ihlast2⟩ := ih a
        have hbne : b.value ≠ (t.foldl winnerStep a).value :=
          Nat.ne_of_lt (lt_of_lt_of_le hab (ihle2 a (List.mem_cons_self _ _)))
        have hfb :
            ¬((fun x => x.value == (t.foldl winnerStep a).value) b = true) := by
          simpa using hbne
        by_cases hpa :
            ((fun x => x.value == (t.foldl winnerStep a).value) a = true)
        · rw [@List.filter_cons_of_pos _
              (fun x => x.value == (t.foldl winnerStep a).value) a (b :: t) hpa,
            @List.filter_cons_of_neg _
              (fun x => x.value == (t.foldl winnerStep a).value) b t hfb]
          rw [@List.filter_cons_of_pos _
              (fun x => x.value == (t.foldl winnerStep a).value) a t hpa] at ihlast2
          exact ihlast2
        · rw [@List.filter_cons_of_neg _
              (fun x => x.value == (t.foldl winnerStep a).value) a (b :: t) hpa,
            @List.filter_cons_of_neg _
              (fun x => x.value == (t.foldl winnerStep a).value) b t hfb]
          rw [@List.filter_cons_of_neg _
              (fun x => x.value == (t.foldl winnerStep a).value) a t hpa] at ihlast2
          exact ihlast2
      · have hstepb : winnerStep a b = b := by
          unfold winnerStep; rw [if_neg hab]
        rw [hstepb]
        obtain ⟨-, -, ihlast2⟩ := ih b
        by_cases hpa :
            ((fun x => x.value == (t.foldl winnerStep b).value) a = true)
        · rw [@List.filter_cons_of_pos _
              (fun x => x.value == (t.foldl winnerStep b).value) a (b :: t) hpa]
          cases hfp : (b :: t).filter
              (fun x => x.value == (t.foldl winnerStep b).value) with
          | nil =>
            rw [hfp] at ihlast2
            cases ihlast2
          | cons y ys =>
            rw [hfp] at ihlast2
            rw [List.getLast?_cons_cons]
            exact ihlast2
        · rw [@List.filter_cons_of_neg _
              (fun x => x.value == (t.foldl winnerStep b).value) a (b :: t) hpa]
          exact ihlast2

/-- C2 counterexample: with options `A` then `B` both at 3 votes, the
computed winner is `B`, the one listed second, not the first-listed
option. -/
theorem winner_tie_second_cex :
    winnerReduce ansTie = some ⟨"B", 3⟩ ∧
    ansTie.head? = some ⟨"A", 3⟩ ∧
    (⟨"B", 3⟩ : AnswerCount) ≠ ⟨"A", 3⟩ :=
  ⟨rfl, rfl, by decide⟩

/-- C2 amended: the winner `reduce` returns an option with the maximum
vote count, and among options sharing that maximum it is the LAST one in
the question's original listed order (the reducer keeps the incoming
element on ties). -/
theorem winnerReduce_last_of_max (answers : List AnswerCount)
    (w : AnswerCount) (h : winnerReduce answers = some w) :
    w ∈ answers ∧ (∀ x ∈ answers, x.value ≤ w.value) ∧
    (answers.filter (fun x => x.value == w.value)).getLast? = some w := by
  cases answers with
  | nil => cases h
  | cons a rest =>
    have h2 : rest.foldl winnerStep a = w := by
      injection h
    rw [← h2]
    exact winnerFold_spec rest a

/-- Witness for the amended C2 at the tied input. -/
theorem winnerReduce_last_of_max_witness :
    (⟨"B", 3⟩ : AnswerCount) ∈ ansTie ∧
    (∀ x ∈ ansTie, x.value ≤ (⟨"B", 3⟩ : AnswerCount).value) ∧
    (ansTie.filter (fun x => x.value == (⟨"B", 3⟩ : AnswerCount).value)).getLast? =
      some ⟨"B", 3⟩ :=
  winnerReduce_last_of_max ansTie ⟨"B", 3⟩ rfl

/-- The vote-total fold with an arbitrary accumulator is the accumulator
plus the sum of the counts. -/
theorem foldl_add_value (l : List AnswerCount) (n : ℕ) :
    l.foldl (fun sum answer => sum + answer.value) n =
      n + (l.map (fun a => a.value)).sum := by
  induction l generalizing n with
  | nil => simp
  | cons a t ih => simp [ih, Nat.add_assoc]

/-- `totalVotes` is the sum of the options' counts. -/
theorem totalVotes_eq_sum (l : List AnswerCount) :
    totalVotes l = (l.map (fun a => a.value)).sum := by
  unfold totalVotes
  rw [foldl_add_value]
  simp

/-- C3 counterexample: for a question whose single option has 0 votes the
total is 0 and the computed percentage is `NaN` (the code divides by the
zero total), not 0. -/
theorem percent_zero_total_nan_cex :
    totalVotes ansZero = 0 ∧
    optionPercent ansZero ⟨"A", 0⟩ = JsNum.nan ∧
    JsNum.nan ≠ JsNum.num 0 :=
  ⟨rfl, rfl, by decide⟩

/-- C3 amended: for an option of a question, the displayed percentage is
`count / total * 100` whenever the question's total is non-zero; when the
total is 0 the code still performs the division, which yields `NaN`
(`0 / 0`), not 0. -/
theorem optionPercent_spec (answers : List AnswerCount) (a : AnswerCount)
    (ha : a ∈ answers) :
    (totalVotes answers ≠ 0 →
      optionPercent answers a =
        JsNum.num ((a.value : ℚ) / (totalVotes answers : ℚ) * 100)) ∧
    (totalVotes answers = 0 → optionPercent answers a = JsNum.nan) := by
  constructor
  · intro h
    have htot : ((totalVotes answers : ℕ) : ℚ) ≠ 0 := by exact_mod_cast h
    unfold optionPercent jsDiv jsMul
    rw [if_neg htot]
  · intro h
    have hv : a.value = 0 := by
      have hsum : (answers.map (fun x => x.value)).sum = 0 := by
        rw [← totalVotes_eq_sum]
        exact h
      exact List.sum_eq_zero_iff.mp hsum a.value
        (List.mem_map_of_mem (fun x => x.value) ha)
    unfold optionPercent jsDiv jsMul
    rw [h, hv]
    simp

/-- Witness for the amended C3: with counts 3 and 1 the first option's
percentage is `3/4 * 100`, and at the zero-total input it is `NaN`. -/
theorem optionPercent_spec_witness :
    optionPercent ansW ⟨"A", 3⟩ =
      JsNum.num (((⟨"A", 3⟩ : AnswerCount).value : ℚ) /
        (totalVotes ansW : ℚ) * 100) ∧
    optionPercent ansZero ⟨"A", 0⟩ = JsNum.nan :=
  ⟨(optionPercent_spec ansW ⟨"A", 3⟩ (by simp [ansW])).1 (by decide),
   (optionPercent_spec ansZero ⟨"A", 0⟩ (by simp [ansZero])).2 rfl⟩

/-- C6 counterexample: an otherwise valid poll whose filter has
`age_min = 30 > age_max = 20` passes `pollSchema` validation — it is not
rejected; the form merely shows the inline warning. -/
theorem pollSchema_accepts_bad_age_order_cex :
    pollSchemaValid pollFormBadOrder = true ∧
    ageWarningShown pollFormBadOrder.target_filters = true :=
  ⟨by decide, by decide⟩

/-- C6 amended: creation-time validation only range-checks each age bound
independently (`18 ≤ bound ≤ 100`); `ageMin ≤ ageMax` is not part of the
schema, so a violating poll validates exactly like a poll with no target
filter, and the page shows a non-blocking warning exactly when
`ageMin > ageMax`. -/
theorem pollSchema_age_order_not_enforced (p : PollFormData)
    (f : PollTargetFiltersForm) (mn mx : Int)
    (h1 : 18 ≤ mn) (h2 : mn ≤ 100) (h3 : 18 ≤ mx) (h4 : mx ≤ 100) :
    pollSchemaValid { p with
      target_filters := some { f with age_min := some mn, age_max := some mx } } =
      pollSchemaValid { p with target_filters := none } ∧
    ageWarningShown (some { f with age_min := some mn, age_max := some mx }) =
      decide (mn > mx) := by
  constructor
  · simp [pollSchemaValid, targetFiltersValid, ageBoundValid, h1, h2, h3, h4]
  · have hmn : mn ≠ 0 := by omega
    have hmx : mx ≠ 0 := by omega
    simp [ageWarningShown, jsNumTruthy, hmn, hmx]

/-- Witness for the amended C6 at the concrete bad-order input. -/
theorem pollSchema_age_order_not_enforced_witness :
    pollSchemaValid { pollFormBadOrder with
      target_filters :=
        some { filtersBadOrder with age_min := some 30, age_max := some 20 } } =
      pollSchemaValid { pollFormBadOrder with target_filters := none } ∧
    ageWarningShown
        (some { filtersBadOrder with age_min := some 30, age_max := some 20 }) =
      decide ((30 : Int) > 20) :=
  pollSchema_age_order_not_enforced pollFormBadOrder filtersBadOrder 30 20
    (by decide) (by decide) (by decide) (by decide)

/-- C7: aggregating zero responses gives `totalResponses = 0`, and the
component renders the empty notice for it — none of the percentage
divisions is performed (the detailed branch, the only one computing
percentages, is not taken). -/
theorem aggregate_empty_renders_empty (poll : Poll) :
    (aggregate poll []).totalResponses = 0 ∧
    renderPollResults (aggregate poll []) = RenderedResults.empty :=
  ⟨rfl, rfl⟩

/-- C8: the aggregation result is invariant under any permutation of the
responses, and the in-component per-question vote total is invariant
under any permutation of the summed answer records. -/
theorem aggregate_perm_invariant :
    (∀ (poll : Poll) (rs1 rs2 : List PollResponse), rs1.Perm rs2 →
      aggregate poll rs1 = aggregate poll rs2) ∧
    (∀ (l1 l2 : List AnswerCount), l1.Perm l2 →
      totalVotes l1 = totalVotes l2) := by
  constructor
  · intro poll rs1 rs2 h
    have hcount : ∀ qid oid, countVotes rs1 qid oid = countVotes rs2 qid oid :=
      fun qid oid => (h.filter _).length_eq
    have hgender : ∀ g : String,
        (rs1.filter (fun r => genderName r.gender == g)).length =
        (rs2.filter (fun r => genderName r.gender == g)).length :=
      fun g => (h.filter _).length_eq
    unfold aggregate
    simp only [PollResult.mk.injEq]
    refine ⟨trivial, h.length_eq, ?_, ?_⟩
    · apply List.map_congr_left
      intro q _
      simp only [QuestionResult.mk.injEq]
      refine ⟨trivial, trivial, ?_⟩
      apply List.map_congr_left
      intro o _
      simp only [AnswerCount.mk.injEq]
      exact ⟨trivial, hcount q.id o.id⟩
    · apply List.map_congr_left
      intro g _
      simp only [AnswerCount.mk.injEq]
      exact ⟨trivial, hgender g⟩
  · intro l1 l2 h
    rw [totalVotes_eq_sum, totalVotes_eq_sum]
    exact (h.map _).sum_eq

/-- Witness for C8 at a concrete transposition of two responses. -/
theorem aggregate_perm_invariant_witness :
    aggregate poll0 [resp1, resp2] = aggregate poll0 [resp2, resp1] ∧
    totalVotes [(⟨"A", 3⟩ : AnswerCount), ⟨"B", 1⟩] =
      totalVotes [(⟨"B", 1⟩ : AnswerCount), ⟨"A", 3⟩] :=
  ⟨aggregate_perm_invariant.1 poll0 [resp1, resp2] [resp2, resp1]
      (List.Perm.swap resp2 resp1 []),
   aggregate_perm_invariant.2 _ _
      (List.Perm.swap (⟨"B", 1⟩ : AnswerCount) ⟨"A", 3⟩ [])⟩

end PolitiRate
